import Mathlib

/-!
Shallow embedding of the rtx-3080-watcher program (src/index.ts).

The program watches configured store pages, extracts per-product records in
the browser (`Watcher.getProducts`), classifies them (`Watcher.errors`,
`Watcher.inStock`), reschedules itself (`Watcher.checkPage`) and bounds the
number of simultaneously open browser tabs (`Main.wait` plus a 250 ms
reclaimer interval in `Main.init`).

JavaScript value subtleties that matter here are modelled explicitly:
a product's `price` field can be a number, `null` (extraction threw),
`NaN` (malformed `Number(...)` conversion) or absent/`undefined` (the
synthetic record), and JavaScript `<` coerces `null` to `0` while every
comparison against `NaN` or `undefined` is false.  The `errors` field can
be `undefined`, an array of tags, or (for the synthetic record) a plain
string; `errors?.length > 0` is false for `undefined`.  Config fallbacks in
the source are truthiness tests (`x ? x : d`), not nullish coalescing.
-/

/-- A JavaScript number-like value as it can appear in a record's `price`
field: an actual (rational) number, `NaN`, `null`, or `undefined`/absent. -/
inductive JsVal where
  | num (q : ℚ)
  | nan
  | null
  | undef
deriving DecidableEq, Repr

/-- JavaScript `v < c` for a number-like left operand and a number `c`:
`null` coerces to `0`; comparisons with `NaN` or `undefined` are false. -/
def JsVal.ltQ : JsVal → ℚ → Bool
  | .num q, c => decide (q < c)
  | .nan, _ => false
  | .null, c => decide ((0 : ℚ) < c)
  | .undef, _ => false

/-- A JavaScript boolean-like value as it can appear in `outOfStock`:
`true`, `false`, `null` (initial value, kept when resolution threw), or
`undefined`/absent (the synthetic record has no such field). -/
inductive JsBool where
  | jtrue
  | jfalse
  | null
  | undef
deriving DecidableEq, Repr

/-- JavaScript falsiness of `outOfStock`: `!v` is true unless `v` is `true`. -/
def JsBool.falsy : JsBool → Bool
  | .jtrue => false
  | _ => true

/-- The `errors` field of a record: `undefined` (no field errors), an array
of error tags, or — only on the synthetic record built when zero items were
extracted — a bare string. -/
inductive ErrorsVal where
  | undef
  | tags (l : List String)
  | str (s : String)
deriving DecidableEq, Repr

/-- JavaScript `errors?.length > 0`: false for `undefined`
(`undefined > 0` is false), the array length for an array, the string
length for a string. -/
def ErrorsVal.hasErrors : ErrorsVal → Bool
  | .undef => false
  | .tags l => decide (0 < l.length)
  | .str s => decide (0 < s.length)

/-- The error tags carried as an array; `undefined` and the synthetic
string carry no array tags. -/
def ErrorsVal.tagsList : ErrorsVal → List String
  | .undef => []
  | .tags l => l
  | .str _ => []

/-- One evaluated product record (`interface Product` in the source).
`productName`/`productURL` are `none` when unresolved (`null` in JS); the
null/undefined distinction never matters for those two fields downstream. -/
structure Product where
  productName : Option String
  productURL : Option String
  outOfStock : JsBool
  price : JsVal
  errors : ErrorsVal
deriving DecidableEq, Repr

/-- One target's configuration (`interface WatchConfig`); the structural
CSS selectors are not needed by any property proved here and are omitted. -/
structure WatchConfig where
  store : String
  url : String
  refreshSeconds : Option ℚ
  maxPrice : Option ℚ
  expectedProductCount : ℕ
  outOfStockText : Option String
  maxTabs : Option ℕ
deriving DecidableEq, Repr

/-- The global configuration (`watch-config.json`, `MasterConfig`). -/
structure MasterConfig where
  defaultRefreshSeconds : ℚ
  defaultMaxPrice : ℚ
  errorTimeSeconds : ℚ
  successTimeSeconds : ℚ
  maxTabs : Option ℕ
  headless : Option Bool
  verbose : Bool
  disable : Option (List String)
deriving DecidableEq, Repr

/-- The effective price ceiling,
`watchConfig.maxPrice ? watchConfig.maxPrice : MasterConfig.defaultMaxPrice`:
a truthiness test, so a configured ceiling of `0` (falsy) also falls back
to the global default. -/
def effectiveMaxPrice (w : WatchConfig) (m : MasterConfig) : ℚ :=
  match w.maxPrice with
  | some p => if p = 0 then m.defaultMaxPrice else p
  | none => m.defaultMaxPrice

/-- The effective refresh delay in milliseconds,
`watchConfig.refreshSeconds ? watchConfig.refreshSeconds*1000 :
MasterConfig.defaultRefreshSeconds*1000` — again a truthiness test. -/
def effectiveRefreshMs (w : WatchConfig) (m : MasterConfig) : ℚ :=
  match w.refreshSeconds with
  | some r => if r = 0 then m.defaultRefreshSeconds * 1000 else r * 1000
  | none => m.defaultRefreshSeconds * 1000

namespace Watcher

/-- Source `Watcher.errors`: `products.filter(product => product.errors?.length > 0)`. -/
def errors (products : List Product) : List Product :=
  products.filter (fun p => p.errors.hasErrors)

/-- Source `Watcher.inStock`:
`products.filter(product => !product.outOfStock && product.price < ceiling)`.
Note the filter does not consult the `errors` field. -/
def inStock (w : WatchConfig) (m : MasterConfig) (products : List Product) : List Product :=
  products.filter (fun p => p.outOfStock.falsy && p.price.ltQ (effectiveMaxPrice w m))

end Watcher

/-- A character survives the price-text strip iff it is a digit or a
decimal point (`replace(/[^\d\.]/g, '')`). -/
def isPriceChar (c : Char) : Bool := c.isDigit || c = '.'

/-- Strip every character that is not a digit or a decimal point. -/
def stripNonPrice (s : List Char) : List Char := s.filter isPriceChar

/-- Value of a digit string read in base 10 (empty list gives 0). -/
def digitsVal (l : List Char) : ℕ := l.foldl (fun acc c => 10 * acc + (c.toNat - 48)) 0

/-- JavaScript `Number(s)` for a string `s` made only of digits and dots:
`Number("")` is `0`; a string with two or more dots, or a lone dot, is
`NaN`; otherwise the decimal value (`"5."` is `5`, `".5"` is `0.5`). -/
def jsNumberOfStripped (l : List Char) : JsVal :=
  if l = [] then .num 0
  else if 2 ≤ l.count '.' then .nan
  else if l = ['.'] then .nan
  else
    let intPart := l.takeWhile (fun c => c ≠ '.')
    let fracPart := (l.dropWhile (fun c => c ≠ '.')).drop 1
    .num ((digitsVal intPart : ℚ) + (digitsVal fracPart : ℚ) / 10 ^ fracPart.length)

/-- Price conversion `Number(text.replace(/[^\d\.]/g, ''))`: strip, then convert. -/
def parsePrice (text : List Char) : JsVal := jsNumberOfStripped (stripNonPrice text)

/-- The outcome of the in-browser field lookups for one matched product
element. `none` means the lookup threw (element missing / attribute access
on `null`); `priceText` is the raw text of the price element when its
lookup succeeded — the subsequent `Number(...)` conversion itself never
throws. -/
structure RawItem where
  nameResult : Option String
  urlResult : Option String
  stockResult : Option Bool
  priceText : Option (List Char)
deriving DecidableEq, Repr

namespace Watcher

/-- The per-item body of the `products.forEach` loop in
`Watcher.getProducts`: each of the four fields is resolved independently;
a throwing lookup leaves the field at its initial `null` and pushes the
field's error tag; an empty tag array is replaced by `undefined`. -/
def evalItem (item : RawItem) : Product :=
  let e1 : List String := match item.nameResult with
    | some _ => []
    | none => ["Product name"]
  let e2 : List String := match item.urlResult with
    | some _ => e1
    | none => e1 ++ ["Product URL"]
  let e3 : List String := match item.stockResult with
    | some _ => e2
    | none => e2 ++ ["Out of stock"]
  let e4 : List String := match item.priceText with
    | some _ => e3
    | none => e3 ++ ["Price"]
  { productName := item.nameResult
    productURL := item.urlResult
    outOfStock := match item.stockResult with
      | some true => .jtrue
      | some false => .jfalse
      | none => .null
    price := match item.priceText with
      | some t => parsePrice t
      | none => .null
    errors := if e4 = [] then .undef else .tags e4 }

/-- The record `matches[0] = { errors: "Error loading page for ..." }`
synthesized when zero items were extracted: every other field is absent
and `errors` is a bare string, not an array. -/
def syntheticRecord (store : String) : Product :=
  { productName := none
    productURL := none
    outOfStock := .undef
    price := .undef
    errors := .str ("Error loading page for " ++ store ++ ".") }

/-- The count-mismatch message appended to the last extracted record. -/
def countMsg (w : WatchConfig) (found : ℕ) : String :=
  "Did not find the expected number of results for " ++ w.store ++
    ".  Expected " ++ toString w.expectedProductCount ++ ", found " ++
    toString found ++ "."

/-- Source `matches[last].errors = matches[last].errors ? matches[last].errors : [];
matches[last].errors.push(msg)`. A bare-string `errors` is truthy so the
source would attempt `push` on a string and throw; that shape is
unreachable here because per-item records carry `undefined` or an array. -/
def pushCountMsg (e : ErrorsVal) (msg : String) : ErrorsVal :=
  match e with
  | .undef => .tags [msg]
  | .tags l => .tags (l ++ [msg])
  | .str s => .str s

/-- The item-count validation at the end of `Watcher.getProducts`: when the
number of extracted records differs from `expectedProductCount`, zero
records are replaced by one synthetic error record, and otherwise the
count-mismatch message is pushed onto the last record's tags. -/
def checkCount (w : WatchConfig) (ms : List Product) : List Product :=
  if ms.length = w.expectedProductCount then ms
  else
    match ms.getLast? with
    | none => [syntheticRecord w.store]
    | some last =>
        ms.dropLast ++ [{ last with errors := pushCountMsg last.errors (countMsg w ms.length) }]

/-- Source `Watcher.getProducts` on the outcome of the DOM queries: evaluate each
matched element, then validate the item count. -/
def getProducts (w : WatchConfig) (items : List RawItem) : List Product :=
  checkCount w (items.map evalItem)

end Watcher

/-- One observable side effect of a check, in the order the source performs
them. `armTimer d` is `this.handle = setTimeout(() => this.checkPage(), d)`:
arming the timer is what re-enters the check loop after `d` milliseconds. -/
inductive Effect where
  | screenshot (tag : String)
  | armTimer (delayMs : ℚ)
  | notify (ps : List Product)
  | closePage
deriving DecidableEq, Repr

/-- Whether an effect arms the next-check timer. -/
def Effect.isArm : Effect → Bool
  | .armTimer _ => true
  | _ => false

/-- The delays of the timers armed by a list of actions. -/
def armedDelays (l : List Effect) : List ℚ :=
  l.filterMap fun a => match a with
    | .armTimer d => some d
    | _ => none

/-- The notification payloads sent by a list of actions. -/
def notifyPayloads (l : List Effect) : List (List Product) :=
  l.filterMap fun a => match a with
    | .notify ps => some ps
    | _ => none

/-- What `Watcher.loadPage` delivered to the rest of `checkPage`: either it
threw (navigation succeeded or timed out but the selector wait failed), or
the page is up and the DOM queries yield a list of raw items. -/
inductive LoadResult where
  | failure
  | success (items : List RawItem)
deriving DecidableEq, Repr

namespace Watcher

/-- Source `Watcher.checkPage` after the load attempt, as the sequence of side
effects it performs. The catch branch and the `errors.length > 0` branch
take an `error` screenshot and rearm after `errorTimeSeconds`; the empty
branch rearms after the target's refresh delay; the success branch sends
the notification, takes a `success` screenshot and rearms after
`successTimeSeconds`; every branch closes the page last. -/
def checkPage (w : WatchConfig) (m : MasterConfig) (r : LoadResult) : List Effect :=
  match r with
  | .failure =>
      [.screenshot "error", .armTimer (m.errorTimeSeconds * 1000), .closePage]
  | .success items =>
      let products := getProducts w items
      let inS := inStock w m products
      let errs := errors products
      if 0 < errs.length then
        [.screenshot "error", .armTimer (m.errorTimeSeconds * 1000), .closePage]
      else if inS.length = 0 then
        [.armTimer (effectiveRefreshMs w m), .closePage]
      else
        [.notify inS, .screenshot "success", .armTimer (m.successTimeSeconds * 1000), .closePage]

end Watcher

/-- The effective tab ceiling,
`MasterConfig.maxTabs ? MasterConfig.maxTabs : 10`: the global setting with
a truthy fallback to 10. The per-target `maxTabs` field is never read. -/
def effectiveMaxTabs (m : MasterConfig) : ℕ :=
  match m.maxTabs with
  | some n => if n = 0 then 10 else n
  | none => 10

namespace Main

/-- Result of one `Main.wait` call: the returned promise either resolves
immediately or is enqueued behind the FIFO queue. -/
inductive WaitResult where
  | immediate
  | queued
deriving DecidableEq, Repr

/-- The admission state `Main.wait` reads and writes: the FIFO `queue` of
pending resolve callbacks (represented by request tokens) and the number of
open pages reported by `browser.pages()` (which includes the one baseline
page the browser always has). -/
structure MainState where
  queue : List ℕ
  pages : ℕ
deriving DecidableEq, Repr

/-- The decision logic of `Main.wait`: queue the request when
`this.queue.length > 1 || pages.length - 1 >= (MasterConfig.maxTabs ? MasterConfig.maxTabs : 10)`,
otherwise resolve immediately. The target's config is used only for log
messages. -/
def wait (m : MasterConfig) (w : WatchConfig) (s : MainState) (tok : ℕ) :
    WaitResult × MainState :=
  if 1 < s.queue.length ∨ (s.pages : ℤ) - 1 ≥ (effectiveMaxTabs m : ℤ) then
    (.queued, { s with queue := s.queue ++ [tok] })
  else
    (.immediate, s)

/-- Where a watcher stands in one round of admission and page use. -/
inductive Phase where
  | idle
  | admitted
  | waiting
  | released
  | opened
  | closed
deriving DecidableEq, Repr

/-- Global state of the admission controller together with every watcher's
phase (watcher `i`'s phase is `phases[i]`) and the history of queue
releases performed by the reclaimer. -/
structure SysState where
  phases : List Phase
  queue : List ℕ
  pages : ℕ
  releases : List ℕ
deriving DecidableEq, Repr

/-- One step of the single-threaded event loop. `check w` is watcher `w`
resuming inside `Main.wait` after `await this.browser.pages()`: it reads
the current counts and either passes or enqueues itself. `openPage w` is
the later `await this.browser.newPage()` taking effect — a separate event,
because the two are separated by suspension points. `closePage w` is
`this.page.close()`. `tick` is one firing of the 250 ms `setInterval` in
`Main.init`: if the queue is non-empty and exactly the baseline page is
open, it pops the queue head and resolves it. -/
inductive Event where
  | check (w : ℕ)
  | openPage (w : ℕ)
  | closePage (w : ℕ)
  | tick
deriving DecidableEq, Repr

/-- The transition function of the event loop. Events that do not match
the watcher's phase are ignored (such an event cannot occur). -/
def step (m : MasterConfig) (s : SysState) (e : Event) : SysState :=
  match e with
  | .check w =>
      if s.phases.getD w .closed = .idle then
        if 1 < s.queue.length ∨ (s.pages : ℤ) - 1 ≥ (effectiveMaxTabs m : ℤ) then
          { s with queue := s.queue ++ [w], phases := s.phases.set w .waiting }
        else
          { s with phases := s.phases.set w .admitted }
      else s
  | .openPage w =>
      if s.phases.getD w .closed = .admitted ∨ s.phases.getD w .closed = .released then
        { s with pages := s.pages + 1, phases := s.phases.set w .opened }
      else s
  | .closePage w =>
      if s.phases.getD w .closed = .opened then
        { s with pages := s.pages - 1, phases := s.phases.set w .closed }
      else s
  | .tick =>
      match s.queue with
      | [] => s
      | h :: t =>
          if s.pages = 1 then
            { s with queue := t, phases := s.phases.set h .released,
                     releases := s.releases ++ [h] }
          else s

/-- Run the event loop over a schedule of events. -/
def run (m : MasterConfig) (s : SysState) (es : List Event) : SysState :=
  es.foldl (step m) s

end Main

/-! Concrete fixtures used by witnesses and counterexamples. -/

/-- A target with every optional field absent and one expected product. -/
def acmeConfig : WatchConfig :=
  { store := "Acme", url := "http://acme.example", refreshSeconds := none,
    maxPrice := none, expectedProductCount := 1, outOfStockText := none,
    maxTabs := none }

/-- Global defaults: refresh 60 s, ceiling 500, error retry 30 s,
success retry 3600 s, no explicit tab ceiling. -/
def masterDefaults : MasterConfig :=
  { defaultRefreshSeconds := 60, defaultMaxPrice := 500, errorTimeSeconds := 30,
    successTimeSeconds := 3600, maxTabs := none, headless := none,
    verbose := false, disable := none }

/-- A record whose name lookup threw but whose price resolved to 100. -/
def nameErrRecord : Product :=
  { productName := none, productURL := some "http://acme.example/rtx",
    outOfStock := .jfalse, price := .num 100,
    errors := .tags ["Product name"] }

/-- A record whose price lookup threw: `price` stayed `null` and a
"Price" tag was pushed. -/
def priceErrRecord : Product :=
  { productName := some "RTX 3080", productURL := some "http://acme.example/rtx",
    outOfStock := .null, price := .null, errors := .tags ["Price"] }

/-- The target with a configured price ceiling of 0. -/
def zeroCeilingConfig : WatchConfig := { acmeConfig with maxPrice := some 0 }

/-- An error-free record priced at 100. -/
def hundredRecord : Product :=
  { productName := some "RTX 3080", productURL := some "http://acme.example/rtx",
    outOfStock := .jfalse, price := .num 100, errors := .undef }

/-- An error-free record priced one cent below the default ceiling. -/
def boundaryRecord : Product :=
  { productName := some "RTX 3080", productURL := some "http://acme.example/rtx",
    outOfStock := .jfalse, price := .num (500 - 1 / 100), errors := .undef }

/-- The target with a configured per-target refresh of 0 seconds. -/
def zeroRefreshConfig : WatchConfig := { acmeConfig with refreshSeconds := some 0 }

/-- A fully resolved item that is marked out of stock. -/
def stockedOutItem : RawItem :=
  { nameResult := some "RTX 3080", urlResult := some "http://acme.example/rtx",
    stockResult := some true, priceText := some "$999".toList }

/-- A fully resolved item whose price text strips to `"1.2.3"`, which
`Number(...)` converts to `NaN`. -/
def malformedPriceItem : RawItem :=
  { nameResult := some "RTX 3080", urlResult := some "http://acme.example/rtx",
    stockResult := some false, priceText := some "1.2.3".toList }

/-- An item whose price element lookup threw. -/
def noPriceItem : RawItem :=
  { nameResult := some "RTX 3080", urlResult := some "http://acme.example/rtx",
    stockResult := some false, priceText := none }

/-- An item whose price text holds no digit and no dot at all. -/
def comingSoonItem : RawItem :=
  { nameResult := some "RTX 3080", urlResult := some "http://acme.example/rtx",
    stockResult := some false, priceText := some "Coming soon".toList }

/-- A target expecting two products. -/
def twoExpectedConfig : WatchConfig := { acmeConfig with expectedProductCount := 2 }

/-- A fully resolved, in-stock item. -/
def basicItem : RawItem :=
  { nameResult := some "RTX 3080", urlResult := some "http://acme.example/rtx",
    stockResult := some false, priceText := some "$499".toList }

/-- Admission state with one pending request in the queue and only the
baseline page open. -/
def oneQueuedState : Main.MainState := { queue := [7], pages := 1 }

/-- Global config with a tab ceiling of 2. -/
def tabCeilingTwo : MasterConfig := { masterDefaults with maxTabs := some 2 }

/-- Three watchers, none started; only the baseline page is open. -/
def threeIdleWatchers : Main.SysState :=
  { phases := [.idle, .idle, .idle], queue := [], pages := 1, releases := [] }

/-- A schedule in which all three watchers resume inside `Main.wait`
(each reading `pages = 1` and an empty queue) before any of them reaches
`browser.newPage()`. -/
def overAdmissionTrace : List Main.Event :=
  [.check 0, .check 1, .check 2, .openPage 0, .openPage 1, .openPage 2]

/-! Shared helper lemmas about the embedded operations. -/

/-- Membership in the `inStock` selection unfolded: the filter consults
only `outOfStock` and `price`. -/
theorem mem_inStock_iff (w : WatchConfig) (m : MasterConfig)
    (ps : List Product) (p : Product) :
    p ∈ Watcher.inStock w m ps ↔
      p ∈ ps ∧ p.outOfStock.falsy = true ∧
        p.price.ltQ (effectiveMaxPrice w m) = true := by
  simp [Watcher.inStock, List.mem_filter, Bool.and_eq_true]

/-- When the price text was read, the record's price is its parse. -/
theorem evalItem_price_some (item : RawItem) (t : List Char)
    (h : item.priceText = some t) :
    (Watcher.evalItem item).price = parsePrice t := by
  simp [Watcher.evalItem, h]

/-- When the price lookup threw, the record's price stayed `null`. -/
theorem evalItem_price_none (item : RawItem) (h : item.priceText = none) :
    (Watcher.evalItem item).price = .null := by
  simp [Watcher.evalItem, h]

/-- A record built by the per-item evaluator carries the "Price" tag iff
the price lookup threw; a successful lookup never yields the tag, whatever
`Number(...)` returned. -/
theorem evalItem_price_tag (item : RawItem) :
    ("Price" ∈ ((Watcher.evalItem item).errors).tagsList) ↔
      item.priceText = none := by
  obtain ⟨n, u, st, pt⟩ := item
  cases n <;> cases u <;> cases st <;> cases pt <;>
    simp [Watcher.evalItem, ErrorsVal.tagsList, String.ext_iff]

/-! Claim C1. -/

/-- Claim C1 is false as stated: the `inStock` filter never consults the
`errors` field, so a record carrying a "Product name" error tag, with
`outOfStock` false and a resolved price of 100 under the ceiling 500, is
returned both by the `errors` selection and by the `inStock` selection. -/
theorem c1_overlap_counterexample :
    nameErrRecord ∈ Watcher.inStock acmeConfig masterDefaults [nameErrRecord] ∧
    nameErrRecord ∈ Watcher.errors [nameErrRecord] := by
  decide

/-- Claim C1 amended: `inStock` and `errors` need not be disjoint. The
`inStock` filter ignores error tags: a record of the `errors` selection is
also returned by `inStock` exactly when its `outOfStock` is falsy and its
price compares below the effective ceiling under JavaScript coercion. -/
theorem c1_inStock_ignores_errors (w : WatchConfig) (m : MasterConfig)
    (ps : List Product) (p : Product) (hp : p ∈ Watcher.errors ps) :
    p ∈ Watcher.inStock w m ps ↔
      (p.outOfStock.falsy = true ∧
        p.price.ltQ (effectiveMaxPrice w m) = true) := by
  have hmem : p ∈ ps := (List.mem_filter.mp hp).1
  rw [mem_inStock_iff]
  simp [hmem]

/-- Witness for the amended C1 at a concrete input: the record with a
"Product name" error is in `inStock`. -/
theorem c1_inStock_ignores_errors_witness :
    nameErrRecord ∈ Watcher.inStock acmeConfig masterDefaults [nameErrRecord] := by
  exact (c1_inStock_ignores_errors acmeConfig masterDefaults [nameErrRecord]
    nameErrRecord (by decide)).mpr (by decide)

/-! Claim C2. -/

/-- Claim C2 is false as stated: a record whose price lookup threw carries
the "Price" tag and a `null` price, and JavaScript coerces `null` to `0`
in `<`, so with the default ceiling 500 and falsy `outOfStock` the record
is returned by `inStock`. -/
theorem c2_null_price_counterexample :
    priceErrRecord.errors = .tags ["Price"] ∧
    priceErrRecord.price = .null ∧
    priceErrRecord ∈ Watcher.inStock acmeConfig masterDefaults [priceErrRecord] := by
  decide

/-- Claim C2 amended: a record with a `null` price (the price field could
not be resolved) is returned by `inStock` exactly when its `outOfStock` is
falsy and the effective ceiling is positive, because `null < ceiling`
coerces `null` to `0`. -/
theorem c2_null_price_inStock_iff (w : WatchConfig) (m : MasterConfig)
    (ps : List Product) (p : Product) (hprice : p.price = .null)
    (hmem : p ∈ ps) :
    p ∈ Watcher.inStock w m ps ↔
      (p.outOfStock.falsy = true ∧ 0 < effectiveMaxPrice w m) := by
  rw [mem_inStock_iff]
  simp [hmem, hprice, JsVal.ltQ]

/-- Witness for the amended C2 at a concrete input. -/
theorem c2_null_price_inStock_iff_witness :
    priceErrRecord ∈ Watcher.inStock acmeConfig masterDefaults [priceErrRecord] := by
  exact (c2_null_price_inStock_iff acmeConfig masterDefaults [priceErrRecord]
    priceErrRecord rfl (by decide)).mpr (by decide)

/-! Claim C4. -/

/-- Claim C4 is false as stated: the effective ceiling is a truthy
fallback, not nullish coalescing. With a configured `maxPrice` of 0 the
source falls back to the global default 500, so a record priced 100
qualifies even though 100 is not below the claimed ceiling
`target.maxPrice ?? default = 0`. -/
theorem c4_zero_maxPrice_counterexample :
    zeroCeilingConfig.maxPrice = some 0 ∧
    hundredRecord ∈ Watcher.inStock zeroCeilingConfig masterDefaults [hundredRecord] ∧
    ¬ ((100 : ℚ) < 0) := by
  refine ⟨rfl, by decide, by norm_num⟩

/-- Claim C4 amended: a record qualifies only if its price compares
strictly below the effective ceiling, where the effective ceiling is
`target.maxPrice` when present and nonzero (truthy) and the global default
otherwise; a record priced exactly at the ceiling never qualifies; a
record priced `ceiling - 0.01` with falsy `outOfStock` (and no errors)
qualifies; an absent `target.maxPrice` selects the global default. -/
theorem c4_price_ceiling (w : WatchConfig) (m : MasterConfig)
    (ps : List Product) (p : Product) :
    (p ∈ Watcher.inStock w m ps →
      p.price.ltQ (effectiveMaxPrice w m) = true) ∧
    (p.price = .num (effectiveMaxPrice w m) → p ∉ Watcher.inStock w m ps) ∧
    (p ∈ ps → p.price = .num (effectiveMaxPrice w m - 1 / 100) →
      p.outOfStock.falsy = true → p.errors = .undef →
      p ∈ Watcher.inStock w m ps) ∧
    (w.maxPrice = none → effectiveMaxPrice w m = m.defaultMaxPrice) := by
  refine ⟨?_, ?_, ?_, ?_⟩
  · intro h
    exact ((mem_inStock_iff w m ps p).mp h).2.2
  · intro hprice h
    have := ((mem_inStock_iff w m ps p).mp h).2.2
    rw [hprice] at this
    simp [JsVal.ltQ] at this
  · intro hmem hprice hstock herr
    refine (mem_inStock_iff w m ps p).mpr ⟨hmem, hstock, ?_⟩
    rw [hprice]
    simp [JsVal.ltQ]
  · intro h
    simp [effectiveMaxPrice, h]

/-- Witness for the amended C4 at a concrete input: the record priced
one cent below the default ceiling 500 is in `inStock`. -/
theorem c4_price_ceiling_witness :
    boundaryRecord ∈ Watcher.inStock acmeConfig masterDefaults [boundaryRecord] := by
  exact (c4_price_ceiling acmeConfig masterDefaults [boundaryRecord]
    boundaryRecord).2.2.1 (List.mem_singleton.mpr rfl) rfl rfl rfl

/-! Claim C10. -/

/-- Claim C10: when the price element exists but its text has no digit and
no dot, the strip leaves the empty string, `Number("")` is `0`, no "Price"
tag is recorded, and with falsy `outOfStock` the record is in `inStock`
for every positive effective ceiling. -/
theorem c10_no_digits_price_zero (w : WatchConfig) (m : MasterConfig)
    (item : RawItem) (text : List Char)
    (hp : item.priceText = some text)
    (hchars : ∀ c ∈ text, isPriceChar c = false)
    (hstock : (Watcher.evalItem item).outOfStock.falsy = true)
    (hceil : 0 < effectiveMaxPrice w m) :
    (Watcher.evalItem item).price = .num 0 ∧
    "Price" ∉ ((Watcher.evalItem item).errors).tagsList ∧
    Watcher.evalItem item ∈
      Watcher.inStock w m [Watcher.evalItem item] := by
  have hstrip : stripNonPrice text = [] := by
    rw [stripNonPrice, List.filter_eq_nil_iff]
    intro c hc
    simp [hchars c hc]
  have hzero : (Watcher.evalItem item).price = .num 0 := by
    rw [evalItem_price_some item text hp, parsePrice, hstrip]
    rfl
  refine ⟨hzero, ?_, ?_⟩
  · rw [evalItem_price_tag, hp]
    simp
  · refine (mem_inStock_iff w m _ _).mpr ⟨by simp, hstock, ?_⟩
    rw [hzero]
    simpa [JsVal.ltQ] using hceil

/-- Witness for C10 at a concrete input: a price text of "Coming soon". -/
theorem c10_no_digits_price_zero_witness :
    (Watcher.evalItem comingSoonItem).price = .num 0 ∧
    "Price" ∉ ((Watcher.evalItem comingSoonItem).errors).tagsList ∧
    Watcher.evalItem comingSoonItem ∈
      Watcher.inStock acmeConfig masterDefaults [Watcher.evalItem comingSoonItem] := by
  exact c10_no_digits_price_zero acmeConfig masterDefaults comingSoonItem
    "Coming soon".toList rfl (by decide) rfl (by decide)

/-! Claim C3. -/

/-- Claim C3 is false as stated: `Main.wait` queues only when
`queue.length > 1`, not when the queue is non-empty. With one request
already queued, the baseline page alone open and the default ceiling 10,
the call resolves immediately even though the wait queue is not empty. -/
theorem c3_queue_of_one_counterexample :
    oneQueuedState.queue ≠ [] ∧
    (oneQueuedState.pages : ℤ) - 1 < (effectiveMaxTabs masterDefaults : ℤ) ∧
    (Main.wait masterDefaults acmeConfig oneQueuedState 5).1 = .immediate := by
  decide

/-- Helper: `getD` after `set` at the same (in-bounds) index yields the
written value. -/
theorem phases_getD_set_self {α : Type} (l : List α) (i : ℕ) (a d : α)
    (h : i < l.length) : (l.set i a).getD i d = a := by
  simp [List.getD_eq_getElem?_getD, List.getElem?_set, h]

/-- Claim C3 amended: the call resolves immediately iff the open-context
count minus the baseline is below the global ceiling
(`MasterConfig.maxTabs`, truthy default 10 — the target's own `maxTabs` is
never read, and the decision is independent of the target's config) AND
the wait queue holds at most one pending token; otherwise it appends a
completion token at the tail of the FIFO queue and resolves only when the
background reclaimer later releases it: in the event-loop model, a queued
(`waiting`) watcher leaves that state only through a reclaimer `tick`,
which requires the open-page count to be back at the baseline 1 and
releases exactly the head of the FIFO queue. -/
theorem c3_wait_decision (m : MasterConfig) (w w' : WatchConfig)
    (s : Main.MainState) (tok : ℕ) :
    ((Main.wait m w s tok).1 = .immediate ↔
      (s.queue.length ≤ 1 ∧ (s.pages : ℤ) - 1 < (effectiveMaxTabs m : ℤ))) ∧
    ((Main.wait m w s tok).1 = .queued →
      (Main.wait m w s tok).2.queue = s.queue ++ [tok]) ∧
    Main.wait m w s tok = Main.wait m w' s tok ∧
    (∀ (t : Main.SysState) (e : Main.Event) (v : ℕ),
      t.phases.getD v .closed = .waiting →
      (Main.step m t e).phases.getD v .closed ≠ .waiting →
      e = .tick ∧ t.pages = 1 ∧ t.queue.head? = some v ∧
        (Main.step m t e).phases.getD v .closed = .released ∧
        (Main.step m t e).releases = t.releases ++ [v]) := by
  refine ⟨?_, ?_, ?_, ?_⟩
  · by_cases h : 1 < s.queue.length ∨ (s.pages : ℤ) - 1 ≥ (effectiveMaxTabs m : ℤ)
    · simp only [Main.wait, if_pos h]
      constructor
      · intro hx
        cases hx
      · intro hx
        omega
    · simp only [Main.wait, if_neg h]
      push_neg at h
      simp only [true_iff]
      omega
  · intro hx
    by_cases h : 1 < s.queue.length ∨ (s.pages : ℤ) - 1 ≥ (effectiveMaxTabs m : ℤ)
    · simp only [Main.wait, if_pos h]
    · simp only [Main.wait, if_neg h] at hx
      cases hx
  · by_cases h : 1 < s.queue.length ∨ (s.pages : ℤ) - 1 ≥ (effectiveMaxTabs m : ℤ)
    · simp only [Main.wait, if_pos h]
    · simp only [Main.wait, if_neg h]
  · intro t e v hwait hchg
    have hvlen : v < t.phases.length := by
      by_contra hge
      rw [List.getD_eq_default t.phases Main.Phase.closed (by omega)] at hwait
      exact Main.Phase.noConfusion hwait
    cases e with
    | check u =>
        exfalso
        apply hchg
        simp only [Main.step]
        split_ifs with h1 h2
        · have huv : u ≠ v := by
            intro he
            rw [he, hwait] at h1
            exact Main.Phase.noConfusion h1
          simpa [List.getD_eq_getElem?_getD, List.getElem?_set, huv] using hwait
        · have huv : u ≠ v := by
            intro he
            rw [he, hwait] at h1
            exact Main.Phase.noConfusion h1
          simpa [List.getD_eq_getElem?_getD, List.getElem?_set, huv] using hwait
        · exact hwait
    | openPage u =>
        exfalso
        apply hchg
        simp only [Main.step]
        split_ifs with h1
        · have huv : u ≠ v := by
            intro he
            rw [he, hwait] at h1
            rcases h1 with h1 | h1 <;> exact Main.Phase.noConfusion h1
          simpa [List.getD_eq_getElem?_getD, List.getElem?_set, huv] using hwait
        · exact hwait
    | closePage u =>
        exfalso
        apply hchg
        simp only [Main.step]
        split_ifs with h1
        · have huv : u ≠ v := by
            intro he
            rw [he, hwait] at h1
            exact Main.Phase.noConfusion h1
          simpa [List.getD_eq_getElem?_getD, List.getElem?_set, huv] using hwait
        · exact hwait
    | tick =>
        cases hq : t.queue with
        | nil =>
            exfalso
            apply hchg
            simp only [Main.step, hq]
            exact hwait
        | cons hd tl =>
            by_cases hp : t.pages = 1
            · by_cases hdv : hd = v
              · subst hdv
                refine ⟨rfl, hp, rfl, ?_, ?_⟩
                · simp only [Main.step, hq, if_pos hp]
                  exact phases_getD_set_self _ _ _ _ hvlen
                · simp only [Main.step, hq, if_pos hp]
              · exfalso
                apply hchg
                simp only [Main.step, hq, if_pos hp]
                simpa [List.getD_eq_getElem?_getD, List.getElem?_set, hdv] using hwait
            · exfalso
              apply hchg
              simp only [Main.step, hq, if_neg hp]
              exact hwait

/-- Witness for the amended C3 at concrete inputs: with an empty queue and
only the baseline page a request is admitted immediately, and a queued
watcher at the head of the queue is released by a reclaimer tick. -/
theorem c3_wait_decision_witness :
    (Main.wait masterDefaults acmeConfig { queue := [], pages := 1 } 0).1 = .immediate ∧
    (Main.step masterDefaults
        { phases := [.waiting], queue := [0], pages := 1, releases := [] }
        .tick).phases.getD 0 .closed = .released := by
  have h := c3_wait_decision masterDefaults acmeConfig acmeConfig
    { queue := [], pages := 1 } 0
  refine ⟨(h.1).mpr (by constructor <;> decide), ?_⟩
  exact (h.2.2.2
    { phases := [.waiting], queue := [0], pages := 1, releases := [] }
    .tick 0 (by decide) (by decide)).2.2.2.1

/-! Claim C7. -/

/-- Claim C7 is false in its second half: the price text "1.2.3" strips to
itself and `Number("1.2.3")` is `NaN` — a malformed, non-numeric result —
yet the conversion does not throw, so no "Price" error tag is recorded
(the record's `errors` is even `undefined`). -/
theorem c7_nan_no_tag_counterexample :
    parsePrice "1.2.3".toList = .nan ∧
    (Watcher.evalItem malformedPriceItem).price = .nan ∧
    (Watcher.evalItem malformedPriceItem).errors = .undef := by
  decide

/-- Claim C7 amended: the price is parsed by deleting every character that
is not a digit or a decimal point and converting the remainder with
`Number(...)`; the "Price" error tag is recorded exactly when the price
text lookup itself throws (the price stays `null`), never because the
conversion produced a malformed (`NaN`) result. -/
theorem c7_price_tag_only_on_throw (item : RawItem) :
    (∀ t, item.priceText = some t →
      (Watcher.evalItem item).price = jsNumberOfStripped (t.filter isPriceChar) ∧
      "Price" ∉ ((Watcher.evalItem item).errors).tagsList) ∧
    (item.priceText = none →
      (Watcher.evalItem item).price = .null ∧
      "Price" ∈ ((Watcher.evalItem item).errors).tagsList) := by
  constructor
  · intro t ht
    refine ⟨evalItem_price_some item t ht, ?_⟩
    rw [evalItem_price_tag, ht]
    simp
  · intro h
    refine ⟨evalItem_price_none item h, ?_⟩
    rw [evalItem_price_tag]
    exact h

/-- Witness for the amended C7 at concrete inputs: both the malformed
"1.2.3" item (tagless `NaN`) and the missing-element item (tagged). -/
theorem c7_price_tag_only_on_throw_witness :
    ((Watcher.evalItem malformedPriceItem).price =
        jsNumberOfStripped ("1.2.3".toList.filter isPriceChar) ∧
      "Price" ∉ ((Watcher.evalItem malformedPriceItem).errors).tagsList) ∧
    ((Watcher.evalItem noPriceItem).price = .null ∧
      "Price" ∈ ((Watcher.evalItem noPriceItem).errors).tagsList) := by
  exact ⟨(c7_price_tag_only_on_throw malformedPriceItem).1 "1.2.3".toList rfl,
    (c7_price_tag_only_on_throw noPriceItem).2 rfl⟩

/-- Lemma: `checkCount` on a non-empty list with a count mismatch rewrites only
the last record, pushing the count-mismatch message onto its errors. -/
theorem checkCount_concat (w : WatchConfig) (L : List Product) (b : Product)
    (h : (L ++ [b]).length ≠ w.expectedProductCount) :
    Watcher.checkCount w (L ++ [b]) =
      L ++ [{ b with
        errors := Watcher.pushCountMsg b.errors (Watcher.countMsg w (L ++ [b]).length) }] := by
  simp only [Watcher.checkCount, if_neg h, List.getLast?_concat,
    List.dropLast_concat]

/-! Claim C8. -/

/-- Claim C8: on an item-count mismatch, zero extracted items yield
exactly the one synthetic error record and nothing else; one or more
extracted items keep their number and their prefix unchanged while the
count-mismatch message is pushed onto the last record's errors. -/
theorem c8_count_mismatch (w : WatchConfig) (items : List RawItem)
    (h : items.length ≠ w.expectedProductCount) :
    (items = [] →
      Watcher.getProducts w items = [Watcher.syntheticRecord w.store]) ∧
    (items ≠ [] →
      (Watcher.getProducts w items).length = items.length ∧
      (Watcher.getProducts w items).dropLast =
        (items.map Watcher.evalItem).dropLast ∧
      ((Watcher.getProducts w items).getLast?).map (fun p => p.errors) =
        ((items.map Watcher.evalItem).getLast?).map
          (fun p => Watcher.pushCountMsg p.errors
            (Watcher.countMsg w items.length))) := by
  have hlen : (items.map Watcher.evalItem).length = items.length :=
    List.length_map items Watcher.evalItem
  constructor
  · rintro rfl
    have h0 : ¬ ((0 : ℕ) = w.expectedProductCount) := by
      simpa using h
    simp [Watcher.getProducts, Watcher.checkCount, h0]
  · intro hne
    rcases (items.map Watcher.evalItem).eq_nil_or_concat' with hnil | ⟨L, b, hLb⟩
    · exact absurd (by simpa using hnil) hne
    · have hfound : (L ++ [b]).length = items.length := by
        rw [← hLb]
        exact hlen
      have hcond : (L ++ [b]).length ≠ w.expectedProductCount := by
        rw [hfound]
        exact h
      have hgp : Watcher.getProducts w items =
          L ++ [{ b with
            errors := Watcher.pushCountMsg b.errors (Watcher.countMsg w items.length) }] := by
        rw [Watcher.getProducts, hLb, checkCount_concat w L b hcond, hfound]
      refine ⟨?_, ?_, ?_⟩
      · rw [hgp]
        simpa using hfound
      · rw [hgp, hLb, List.dropLast_concat, List.dropLast_concat]
      · rw [hgp, hLb, List.getLast?_concat, List.getLast?_concat]
        simp
/-- Witness for C8 at concrete inputs: expected 2, one resolved item
extracted — no record is added and the last record gains the
count-mismatch message; expected 2, zero items — one synthetic record. -/
theorem c8_count_mismatch_witness :
    ((Watcher.getProducts twoExpectedConfig [basicItem]).length = 1 ∧
      ((Watcher.getProducts twoExpectedConfig [basicItem]).getLast?).map
          (fun p => p.errors) =
        some (Watcher.pushCountMsg (Watcher.evalItem basicItem).errors
          (Watcher.countMsg twoExpectedConfig 1))) ∧
    Watcher.getProducts twoExpectedConfig [] =
      [Watcher.syntheticRecord twoExpectedConfig.store] := by
  refine ⟨?_, (c8_count_mismatch twoExpectedConfig [] (by decide)).1 rfl⟩
  have h := (c8_count_mismatch twoExpectedConfig [basicItem] (by decide)).2
    (by simp)
  exact ⟨h.1, by rw [h.2.2]; rfl⟩

/-! Claim C5. -/

/-- Claim C5 is false in its refresh fallback: the source uses a truthy
test, not nullish coalescing. With `refreshSeconds` configured as 0, no
errors and no stock, the armed delay is `defaultRefreshSeconds*1000`
(60000 ms here), not the `refreshSeconds ?? default = 0` of the claim. -/
theorem c5_zero_refresh_counterexample :
    zeroRefreshConfig.refreshSeconds = some 0 ∧
    Watcher.errors (Watcher.getProducts zeroRefreshConfig [stockedOutItem]) = [] ∧
    Watcher.inStock zeroRefreshConfig masterDefaults
      (Watcher.getProducts zeroRefreshConfig [stockedOutItem]) = [] ∧
    armedDelays (Watcher.checkPage zeroRefreshConfig masterDefaults
      (.success [stockedOutItem])) = [masterDefaults.defaultRefreshSeconds * 1000] ∧
    masterDefaults.defaultRefreshSeconds * 1000 ≠ (0 : ℚ) * 1000 := by
  refine ⟨rfl, rfl, rfl, rfl, by norm_num [masterDefaults]⟩

/-- Claim C5 amended: after an evaluated check, the armed delay is the
global error interval when the outcome has any errors; otherwise, with
zero qualifying items, `target.refreshSeconds` when present and nonzero
(truthy) and the global default otherwise; otherwise the global success
interval — and exactly in that last case the notifier is fired with the
qualifying list. -/
theorem c5_backoff_classification (w : WatchConfig) (m : MasterConfig)
    (items : List RawItem) :
    (Watcher.errors (Watcher.getProducts w items) ≠ [] →
      armedDelays (Watcher.checkPage w m (.success items)) =
        [m.errorTimeSeconds * 1000] ∧
      notifyPayloads (Watcher.checkPage w m (.success items)) = []) ∧
    (Watcher.errors (Watcher.getProducts w items) = [] →
      Watcher.inStock w m (Watcher.getProducts w items) = [] →
      armedDelays (Watcher.checkPage w m (.success items)) =
        [effectiveRefreshMs w m] ∧
      notifyPayloads (Watcher.checkPage w m (.success items)) = []) ∧
    (Watcher.errors (Watcher.getProducts w items) = [] →
      Watcher.inStock w m (Watcher.getProducts w items) ≠ [] →
      armedDelays (Watcher.checkPage w m (.success items)) =
        [m.successTimeSeconds * 1000] ∧
      notifyPayloads (Watcher.checkPage w m (.success items)) =
        [Watcher.inStock w m (Watcher.getProducts w items)]) := by
  refine ⟨?_, ?_, ?_⟩
  · intro herr
    have hlen : 0 < (Watcher.errors (Watcher.getProducts w items)).length :=
      List.length_pos.mpr herr
    simp only [Watcher.checkPage]
    rw [if_pos hlen]
    exact ⟨rfl, rfl⟩
  · intro herr hin
    simp only [Watcher.checkPage]
    rw [herr, if_neg (by simp), hin]
    rw [if_pos List.length_nil]
    exact ⟨rfl, rfl⟩
  · intro herr hin
    simp only [Watcher.checkPage]
    rw [herr, if_neg (by simp)]
    rw [if_neg (by simpa [List.length_eq_zero] using hin)]
    exact ⟨rfl, rfl⟩

/-- Witness for the amended C5 at a concrete input: zero items against an
expected count of one produce the synthetic error record, and the error
interval is armed with no notification. -/
theorem c5_backoff_classification_witness :
    armedDelays (Watcher.checkPage acmeConfig masterDefaults (.success [])) =
      [masterDefaults.errorTimeSeconds * 1000] ∧
    notifyPayloads (Watcher.checkPage acmeConfig masterDefaults (.success [])) = [] := by
  exact (c5_backoff_classification acmeConfig masterDefaults []).1 (by decide)

/-! Claim C6. -/

/-- Claim C6: every path through an evaluated or failed check arms exactly
one next-check timer (`setTimeout(() => this.checkPage(), ...)`), so the
scheduler re-enters checking with no maximum retry count; no error kind
(load/selector failure, field-extraction errors, count mismatch) ends the
loop. -/
theorem c6_always_rearms (w : WatchConfig) (m : MasterConfig) (r : LoadResult) :
    (armedDelays (Watcher.checkPage w m r)).length = 1 := by
  cases r with
  | failure => rfl
  | success items =>
      simp only [Watcher.checkPage]
      split_ifs <;> rfl

/-! Claim C9. -/

/-- Claim C9 fails on the code: the admission check in `Main.wait` (after
`await browser.pages()`) and the `browser.newPage()` call are separated by
suspension points, so with a ceiling of 2 three watchers can each read
`pages = 1` with an empty queue, all be admitted, and open three page
contexts beyond the baseline at once — no queuing, no release ever
involved. -/
theorem c9_ceiling_exceeded :
    effectiveMaxTabs tabCeilingTwo = 2 ∧
    Main.run tabCeilingTwo threeIdleWatchers overAdmissionTrace =
      { phases := [.opened, .opened, .opened], queue := [], pages := 4,
        releases := [] } := by
  exact ⟨rfl, by decide⟩
